import Mathlib

/-!
Shallow embedding of the slidge-whatsapp Go adapter, covering the media
specification/conversion layer (`slidge_whatsapp/media`), attachment handling,
the event-translation layer and the session command surface. Pure functions of
the Go source are translated into executable Lean definitions; effectful calls
(network sends, remote probe/transcode invocations) are made explicit as either
oracle parameters or emitted call traces, so that the control flow around them
stays faithful to the source.
-/

deriving instance DecidableEq for Except

namespace SlidgeWhatsapp

/-! ## Media types and codecs (`media/media.go`) -/

/-- `MIMEType.BaseMediaType`: the media type without any additional parameters,
i.e. the part of the MIME string before the first `;` (Go `strings.SplitN(t, ";", 2)[0]`). -/
def baseMediaType (t : String) : String :=
  String.mk (t.data.takeWhile (fun c => c ≠ ';'))

/-- Audio format `audio/mp4` (constant `TypeM4A`). -/
def TypeM4A : String := "audio/mp4"

/-- Audio format `audio/ogg` (constant `TypeOgg`). -/
def TypeOgg : String := "audio/ogg"

/-- Video format `video/mp4` (constant `TypeMP4`). -/
def TypeMP4 : String := "video/mp4"

/-- Image format `image/jpeg` (constant `TypeJPEG`). -/
def TypeJPEG : String := "image/jpeg"

/-- Image format `image/png` (constant `TypePNG`). -/
def TypePNG : String := "image/png"

/-- Audio codec `opus` (constant `CodecOpus`). -/
def CodecOpus : String := "opus"

/-- Audio codec `aac` (constant `CodecAAC`). -/
def CodecAAC : String := "aac"

/-- Video codec `h264` (constant `CodecH264`). -/
def CodecH264 : String := "h264"

/-- Rendering of the `errInvalidCodec` format string
`"media with MIME type %s only support codec %s currently, invalid codec %s chosen"`. -/
def errInvalidCodec (mime want got : String) : String :=
  "media with MIME type " ++ mime ++ " only support codec " ++ want ++
    " currently, invalid codec " ++ got ++ " chosen"

/-- The `media.Spec` structure: description of a target media file. Durations are
modelled in nanoseconds (Go `time.Duration`). Codec fields are strings, with the
empty string standing for the Go zero value. -/
structure Spec where
  MIME : String := ""
  AudioCodec : String := ""
  AudioChannels : Int := 0
  AudioBitRate : Int := 0
  AudioSampleRate : Int := 0
  VideoCodec : String := ""
  VideoPixelFormat : String := ""
  VideoFrameRate : Int := 0
  VideoWidth : Int := 0
  VideoHeight : Int := 0
  VideoFilter : String := ""
  ImageWidth : Int := 0
  ImageHeight : Int := 0
  ImageQuality : Int := 0
  ImageFrameRate : Int := 0
  Duration : Int := 0
  StripMetadata : Bool := false
  deriving Repr, DecidableEq

/-- `Spec.commandLineArgs`: the [Spec] as a list of FFmpeg command-line arguments,
or an error for invalid codec combinations, translated clause-by-clause from
`media/media.go`. -/
def commandLineArgs (s : Spec) : Except String (List String) := Id.run do
  let mut args : List String := []
  let mime := baseMediaType s.MIME
  if mime = TypeOgg ∨ mime = TypeM4A then
    -- Audio file format parameters.
    if mime = TypeOgg then
      if s.AudioCodec ≠ "" ∧ s.AudioCodec ≠ CodecOpus then
        return .error (errInvalidCodec mime CodecOpus s.AudioCodec)
      args := args ++ ["-f", "ogg", "-c:a", "libopus"]
    else
      if s.AudioCodec ≠ "" ∧ s.AudioCodec ≠ CodecAAC then
        return .error (errInvalidCodec mime CodecAAC s.AudioCodec)
      args := args ++ ["-f", "ipod", "-c:a", "aac"]
    if s.AudioChannels > 0 then
      args := args ++ ["-ac", toString s.AudioChannels]
    if s.AudioBitRate > 0 then
      args := args ++ ["-b:a", toString s.AudioBitRate ++ "k"]
    if s.AudioSampleRate > 0 then
      args := args ++ ["-ar", toString s.AudioSampleRate]
  else if mime = TypeMP4 then
    -- Video file format parameters.
    if s.VideoCodec ≠ "" ∧ s.VideoCodec ≠ CodecH264 then
      return .error (errInvalidCodec mime CodecH264 s.VideoCodec)
    else if s.AudioCodec ≠ "" ∧ s.AudioCodec ≠ CodecAAC then
      return .error (errInvalidCodec mime CodecAAC s.AudioCodec)
    -- Set input image frame-rate, e.g. when converting from GIF to MP4.
    if s.ImageFrameRate > 0 then
      args := args ++ ["-r", toString s.ImageFrameRate]
    args := args ++ ["-f", "mp4", "-c:v", "libx264", "-c:a", "aac",
      "-profile:v", "baseline", "-level", "3.0", "-movflags", "+faststart"]
    if s.VideoPixelFormat ≠ "" then
      args := args ++ ["-pix_fmt", s.VideoPixelFormat]
    if s.VideoFilter ≠ "" then
      args := args ++ ["-filter:v", s.VideoFilter]
    if s.VideoFrameRate > 0 then
      args := args ++ ["-r", toString s.VideoFrameRate, "-g", toString (s.VideoFrameRate * 2)]
    if s.AudioBitRate > 0 then
      args := args ++ ["-b:a", toString s.AudioBitRate ++ "k"]
    if s.AudioSampleRate > 0 then
      args := args ++ ["-r:a", toString s.AudioSampleRate]
  else if mime = TypeJPEG ∨ mime = TypePNG then
    -- Simple image formats process [Spec] parameters directly.
    return .ok []
  else
    return .error "cannot process media specification for empty or unknown MIME type"
  if s.StripMetadata then
    args := args ++ ["-map_metadata", "-1"]
  return .ok args

/-! ## Waveform extraction (`media/media.go` `GetWaveform`,
`slidge_whatsapp/attachment.go` `getAttachmentWaveform`)

The FFprobe invocation is effectful; its output is passed in as a list of
frames, each carrying the parsed `lavfi.astats.Overall.Peak_level` decibel
value when the frame's tag parses as a float (`none` models a parse failure).
The float computation `byte(math.Pow(10, (db/50))*100)` is abstracted as the
`scale` parameter, since its value is irrelevant to sample-count properties. -/

/-- Constant `maxWaveformSamples`: the maximum number of samples to return in
media waveforms. -/
def maxWaveformSamples : ℕ := 64

/-- `media.GetWaveform`: returns one scaled sample per probe frame whose
peak-level tag parses. `maxSamples` is used only to derive the `asetnsamples`
probe argument (reflected in the oracle's `probeFrames`); the post-processing
neither pads nor truncates the sample list. `probeFrames = none` models probe
output with no `frames` key at all. -/
def GetWaveform (scale : ℚ → ℕ) (audioSampleRate duration : Int)
    (probeFrames : Option (List (Option ℚ))) (maxSamples : ℕ) : Except String (List ℕ) :=
  if audioSampleRate = 0 ∨ duration = 0 then
    .error "no sample-rate or duration for media given"
  else
    -- `numSamples` (samples per analysis frame) parameterizes the `asetnsamples`
    -- filter of the probe invocation, whose output is the `probeFrames` oracle;
    -- it plays no further part in the post-processing.
    let _numSamples := ((audioSampleRate * duration) / 1000000000) / (maxSamples : Int)
    match probeFrames with
    | some f =>
        if f.length = 0 then .error "no audio frames found in media"
        else .ok (f.filterMap (fun v => v.map scale))
    | none => .ok []

/-- `getAttachmentWaveform` (attachment.go): collects one scaled sample per
parseable probe output line into a slice of capacity 64, and returns
`samples[:maxWaveformSamples]` — which zero-pads up to 64 when fewer samples
were appended, and truncates to the first 64 otherwise. -/
def getAttachmentWaveform (scale : ℚ → ℕ) (sampleRate duration : Int)
    (probeLines : List (Option ℚ)) : Except String (List ℕ) :=
  if sampleRate = 0 ∨ duration = 0 then
    .error "empty sample-rate or duration"
  else
    let samples := probeLines.filterMap (fun v => v.map scale)
    .ok (samples.take maxWaveformSamples ++
      List.replicate (maxWaveformSamples - samples.length) 0)

/-! ## Keep-alive reconnect backoff (`session.go`, `events.KeepAliveTimeout`) -/

/-- Constant `keepAliveMinRetryInterval = 5 * time.Second`, in seconds. -/
def keepAliveMinRetryInterval : ℕ := 5

/-- Constant `keepAliveMaxRetryInterval = 5 * time.Minute`, in seconds. -/
def keepAliveMaxRetryInterval : ℕ := 300

/-- The update applied to `interval` after each failed reconnect attempt, after
sleeping (`session.go`): clamp to the maximum when above it, double when below
it, keep otherwise. -/
def nextRetryInterval (interval : ℕ) : ℕ :=
  if interval > keepAliveMaxRetryInterval then keepAliveMaxRetryInterval
  else if interval < keepAliveMaxRetryInterval then interval * 2
  else interval

/-- The interval slept before the `n`-th reconnect retry (0-based): the loop
starts at `keepAliveMinRetryInterval`, sleeps the current interval after each
connect failure, and only then applies `nextRetryInterval`. -/
def retrySleepInterval : ℕ → ℕ
  | 0 => keepAliveMinRetryInterval
  | n + 1 => nextRetryInterval (retrySleepInterval n)

/-! ## GIF conversion target selection (`attachment.go` in the event/attachment
translation unit, `convertAttachment`, `image/gif` case) -/

/-- Default target specification for video messages (`videoMessageSpec`). -/
def videoMessageSpec : Spec :=
  { MIME := TypeMP4
    AudioBitRate := 160
    AudioSampleRate := 44100
    VideoFilter := "pad=ceil(iw/2)*2:ceil(ih/2)*2"
    VideoFrameRate := 25
    VideoPixelFormat := "yuv420p"
    StripMetadata := true }

/-- Default target specification for image messages (`imageMessageSpec`). -/
def imageMessageSpec : Spec :=
  { MIME := TypeJPEG, ImageQuality := 85 }

/-- Go `int(x)` conversion from `float64`, which truncates toward zero; exact
for in-range values, modelled over ℚ via truncating integer division. -/
def intOfFloat (q : ℚ) : Int := q.num / (q.den : Int)

/-- The cumulative delay `t` computed by the `image/gif` branch of
`convertAttachment`. The Go loop is `for d := range img.Delay { t += float64(d) / 100 }`;
with a single iteration variable, Go `range` over a slice yields the element
index, so `d` takes the values `0, 1, ..., len(delay)-1` and the delay values
themselves are never read. Computed over ℚ in place of `float64`. -/
def gifCumulativeDelay (delay : List Int) : ℚ :=
  (List.range delay.length).foldl (fun t d => t + (d : ℚ) / 100) 0

/-- The target [Spec] chosen by the `image/gif` case of `convertAttachment`,
given the decoded frame count `len(img.Image)` and per-frame delay slice
`img.Delay` (in hundredths of a second). -/
def gifConvertSpec (imageCount : ℕ) (delay : List Int) : Spec :=
  if imageCount = 1 then imageMessageSpec
  else
    let t := gifCumulativeDelay delay
    { videoMessageSpec with ImageFrameRate := intOfFloat ((imageCount : ℚ) / t) }

/-! ## JIDs (whatsmeow `types.JID`, as used by the event translation layer) -/

/-- A (simplified) WhatsApp JID: user part, server part and device number
(`0` for non-AD JIDs). -/
structure JID where
  user : String := ""
  server : String := ""
  device : ℕ := 0
  deriving Repr, DecidableEq

/-- `JID.ToNonAD`: the same JID with the device part cleared. -/
def JID.toNonAD (j : JID) : JID := { j with device := 0 }

/-- `JID.String()` for non-AD JIDs (the only form rendered by the translation
layer, which always calls it through `ToNonAD()`): `user@server`, or the bare
server when the user part is empty. -/
def JID.render (j : JID) : String :=
  if j.user = "" then j.server else j.user ++ "@" ++ j.server

/-- whatsmeow constant `types.BroadcastServer`. -/
def BroadcastServer : String := "broadcast"

/-- whatsmeow constant `types.StatusBroadcastJID` (`status@broadcast`). -/
def StatusBroadcastJID : JID := { user := "status", server := BroadcastServer }

/-! ## Event kinds and payloads (`event.go`) -/

/-- `EventKind`: all event types recognized by the Python session adapter. -/
inductive EventKind where
  | unknown
  | qrCode
  | pair
  | connect
  | loggedOut
  | contact
  | presence
  | message
  | chatState
  | receipt
  | group
  | call
  deriving Repr, DecidableEq

/-- `MessageKind`: all concrete message types recognized by the adapter. The
Go zero value (`iota` = 0) is `MessagePlain`. -/
inductive MessageKind where
  | plain
  | edit
  | revoke
  | reaction
  | attachment
  deriving Repr, DecidableEq

/-- A `Location`: additional metadata given to location messages. Coordinates
(Go `float64`) are modelled over ℚ. -/
structure Location where
  latitude : ℚ := 0
  longitude : ℚ := 0
  accuracy : Int := 0
  isLive : Bool := false
  name : String := ""
  address : String := ""
  url : String := ""
  deriving Repr, DecidableEq

/-- An `Attachment` as seen by the event translation layer. The binary data
buffer and internal media spec are not modelled (no claim inspects them). -/
structure Attachment where
  mime : String := ""
  filename : String := ""
  caption : String := ""
  deriving Repr, DecidableEq

/-- The normalized `Message` union. Fields not touched by any claim
(`Preview`, `MentionJIDs`, `Receipts`, `Reactions`) are omitted; all others
default to their Go zero values. -/
structure Message where
  kind : MessageKind := .plain
  id : String := ""
  jid : String := ""
  groupJID : String := ""
  originJID : String := ""
  body : String := ""
  timestamp : Int := 0
  isCarbon : Bool := false
  isForwarded : Bool := false
  replyID : String := ""
  replyBody : String := ""
  attachments : List Attachment := []
  location : Location := {}
  deriving Repr, DecidableEq

/-- A `Contact`: JID plus user-readable name. -/
structure Contact where
  jid : String := ""
  name : String := ""
  deriving Repr, DecidableEq

/-- `EventPayload`: the collected payloads for all handled event types. The
component payloads no claim inspects (`Connect`, `Presence`, `ChatState`,
`Receipt`, `Group`, `Call`) are omitted; the Go zero value is the default. -/
structure EventPayload where
  qrCode : String := ""
  pairDeviceID : String := ""
  contact : Contact := {}
  message : Message := {}
  deriving Repr, DecidableEq

/-! ## Contact translation (`event.go` `newContactEvent`) -/

/-- whatsmeow `types.ContactInfo` (name fields only). -/
structure ContactInfo where
  fullName : String := ""
  firstName : String := ""
  businessName : String := ""
  pushName : String := ""
  deriving Repr, DecidableEq

/-- `newContactEvent`: returns event data for the contact information given.
The Go loop `for _, n := range []string{FullName, FirstName, BusinessName,
PushName} { if n != "" { contact.Name = n; break } }` keeps the first
non-empty name, and contacts with no user-readable name yield `EventUnknown`
with nil data. -/
def newContactEvent (jid : JID) (info : ContactInfo) : EventKind × Option EventPayload :=
  let contactJID := (jid.toNonAD).render
  let name :=
    (([info.fullName, info.firstName, info.businessName, info.pushName]).find?
      (fun n => n != "")).getD ""
  if name = "" then (EventKind.unknown, none)
  else (EventKind.contact, some { contact := { jid := contactJID, name := name } })

/-! ## Message translation (`event.go` `newMessageEvent`)

The raw protobuf message is modelled by the sub-payloads the translator
inspects; attachment extraction (`getMessageAttachments`) performs network
downloads and is passed in as the oracle `getAttach`. -/

/-- A protobuf `waCommon.MessageKey` (nil-safe getters return `""`). -/
structure MessageKey where
  id : String := ""
  participant : String := ""
  fromMe : Bool := false
  deriving Repr, DecidableEq

/-- `p.Key.GetID()` with a nil-safe key pointer. -/
def keyID (k : Option MessageKey) : String :=
  match k with
  | some k => k.id
  | none => ""

/-- `p.Key.GetParticipant()` with a nil-safe key pointer. -/
def keyParticipant (k : Option MessageKey) : String :=
  match k with
  | some k => k.participant
  | none => ""

/-- The `waE2E.ProtocolMessage` types the translator distinguishes; all other
enum values fall into `otherType`. -/
inductive ProtocolMessageType where
  | messageEdit
  | revoke
  | otherType
  deriving Repr, DecidableEq

/-- A protobuf `waE2E.ProtocolMessage`. `editedMessage` holds the
`GetConversation()` of the edited sub-message when `GetEditedMessage()` is
non-nil. -/
structure ProtocolMessage where
  type : ProtocolMessageType := .otherType
  key : Option MessageKey := none
  editedMessage : Option String := none
  deriving Repr, DecidableEq

/-- A protobuf `waE2E.ReactionMessage`. -/
structure ReactionMessage where
  key : Option MessageKey := none
  text : String := ""
  deriving Repr, DecidableEq

/-- A protobuf `waE2E.LocationMessage`. -/
structure LocationMessage where
  latitude : ℚ := 0
  longitude : ℚ := 0
  accuracy : Int := 0
  isLive : Bool := false
  name : String := ""
  address : String := ""
  url : String := ""
  deriving Repr, DecidableEq

/-- A protobuf `waE2E.LiveLocationMessage`. -/
structure LiveLocationMessage where
  caption : String := ""
  latitude : ℚ := 0
  longitude : ℚ := 0
  accuracy : Int := 0
  deriving Repr, DecidableEq

/-- The quoted message inside a `waE2E.ContextInfo`: the translator reads the
quoted message's extended text when present, its conversation otherwise. -/
structure QuotedMessage where
  extendedText : Option String := none
  conversation : String := ""
  deriving Repr, DecidableEq

/-- A protobuf `waE2E.ContextInfo`. -/
structure ContextInfo where
  stanzaID : String := ""
  participant : String := ""
  isForwarded : Bool := false
  quotedMessage : Option QuotedMessage := none
  deriving Repr, DecidableEq

/-- A protobuf `waE2E.ExtendedTextMessage`. -/
structure ExtendedTextMessage where
  text : String := ""
  contextInfo : Option ContextInfo := none
  deriving Repr, DecidableEq

/-- The raw `waE2E.Message`, restricted to the sub-payloads `newMessageEvent`
dispatches on. Downloadable media sub-messages (image, audio, video, document,
sticker, contact vCard) are handled by `getMessageAttachments` and enter the
model through the `getAttach` oracle. -/
structure RawMessage where
  conversation : String := ""
  protocolMessage : Option ProtocolMessage := none
  reactionMessage : Option ReactionMessage := none
  locationMessage : Option LocationMessage := none
  liveLocationMessage : Option LiveLocationMessage := none
  extendedTextMessage : Option ExtendedTextMessage := none
  deriving Repr, DecidableEq

/-- whatsmeow `types.MessageInfo` (fields read by the translator). -/
structure MessageInfo where
  id : String := ""
  sender : JID := {}
  chat : JID := {}
  timestamp : Int := 0
  isFromMe : Bool := false
  isGroup : Bool := false
  deriving Repr, DecidableEq

/-- A whatsmeow `events.Message`. -/
structure MessageEvent where
  info : MessageInfo := {}
  message : RawMessage := {}
  deriving Repr, DecidableEq

/-- The type of the `getMessageAttachments` oracle: attachment list and
optional (vCard) context info, or a download error. -/
abbrev GetAttachFn := RawMessage → Except String (List Attachment × Option ContextInfo)

/-- `getMessageWithContext`: applies quoted-message context metadata to a
normalized message; a nil context returns the message unchanged. -/
def getMessageWithContext (message : Message) (info : Option ContextInfo) : Message :=
  match info with
  | none => message
  | some i =>
      let message :=
        { message with
            replyID := i.stanzaID
            originJID := i.participant
            isForwarded := i.isForwarded }
      match i.quotedMessage with
      | some q =>
          match q.extendedText with
          | some qe => { message with replyBody := qe }
          | none => { message with replyBody := q.conversation }
      | none => message

/-- Final step of `newMessageEvent`: obviously invalid messages (kind Plain
with empty body) are dropped as `EventUnknown`. -/
def messageEventFinalStep (message : Message) : EventKind × Option EventPayload :=
  if message.kind = MessageKind.plain ∧ message.body = "" then (EventKind.unknown, none)
  else (EventKind.message, some { message := message })

/-- Extended-text step of `newMessageEvent`: fill an empty body from the
extended text and merge reply/forward context. -/
def messageEventExtendedStep (raw : RawMessage) (message : Message) :
    EventKind × Option EventPayload :=
  match raw.extendedTextMessage with
  | some e =>
      let message := if message.body = "" then { message with body := e.text } else message
      messageEventFinalStep (getMessageWithContext message e.contextInfo)
  | none => messageEventFinalStep message

/-- Attachment step of `newMessageEvent`: a failed download drops the event as
`EventUnknown`; a non-empty attachment list turns the message into kind
Attachment and merges any vCard context. -/
def messageEventAttachStep (getAttach : GetAttachFn) (raw : RawMessage) (message : Message) :
    EventKind × Option EventPayload :=
  match getAttach raw with
  | .error _ => (EventKind.unknown, none)
  | .ok (attach, ctxInfo) =>
      if attach.length > 0 then
        let message :=
          { message with
              attachments := message.attachments ++ attach
              kind := MessageKind.attachment }
        let message :=
          match ctxInfo with
          | some c => getMessageWithContext message (some c)
          | none => message
        messageEventExtendedStep raw message
      else messageEventExtendedStep raw message

/-- Live-location step of `newMessageEvent`: returns immediately for live
location payloads. -/
def messageEventLiveLocationStep (getAttach : GetAttachFn) (raw : RawMessage)
    (message : Message) : EventKind × Option EventPayload :=
  match raw.liveLocationMessage with
  | some l =>
      (EventKind.message, some
        { message :=
            { message with
                body := l.caption
                location :=
                  { latitude := l.latitude
                    longitude := l.longitude
                    accuracy := l.accuracy
                    isLive := true } } })
  | none => messageEventAttachStep getAttach raw message

/-- Location step of `newMessageEvent`: returns immediately for static
location payloads. -/
def messageEventLocationStep (getAttach : GetAttachFn) (raw : RawMessage)
    (message : Message) : EventKind × Option EventPayload :=
  match raw.locationMessage with
  | some l =>
      (EventKind.message, some
        { message :=
            { message with
                location :=
                  { latitude := l.latitude
                    longitude := l.longitude
                    accuracy := l.accuracy
                    isLive := l.isLive
                    name := l.name
                    address := l.address
                    url := l.url } } })
  | none => messageEventLiveLocationStep getAttach raw message

/-- Reaction step of `newMessageEvent`: returns immediately for emoji
reactions to an existing message. -/
def messageEventReactionStep (getAttach : GetAttachFn) (raw : RawMessage)
    (message : Message) : EventKind × Option EventPayload :=
  match raw.reactionMessage with
  | some r =>
      (EventKind.message, some
        { message :=
            { message with
                kind := MessageKind.reaction
                id := keyID r.key
                body := r.text } })
  | none => messageEventLocationStep getAttach raw message

/-- Protocol-message step of `newMessageEvent` (message deletion or editing):
an edit without an edited sub-message is dropped; a revoke is emitted
immediately with id and origin taken from the key. -/
def messageEventProtocolStep (getAttach : GetAttachFn) (raw : RawMessage)
    (message : Message) : EventKind × Option EventPayload :=
  match raw.protocolMessage with
  | some p =>
      match p.type with
      | .messageEdit =>
          match p.editedMessage with
          | some m =>
              messageEventReactionStep getAttach raw
                { message with kind := MessageKind.edit, id := keyID p.key, body := m }
          | none => (EventKind.unknown, none)
      | .revoke =>
          (EventKind.message, some
            { message :=
                { message with
                    kind := MessageKind.revoke
                    id := keyID p.key
                    originJID := keyParticipant p.key } })
      | .otherType => messageEventReactionStep getAttach raw message
  | none => messageEventReactionStep getAttach raw message

/-- `newMessageEvent`: basic message construction, broadcast/status filtering
and group/carbon chat-JID handling, then the sequential sub-payload steps
above. -/
def newMessageEvent (getAttach : GetAttachFn) (evt : MessageEvent) :
    EventKind × Option EventPayload :=
  let message : Message :=
    { kind := MessageKind.plain
      id := evt.info.id
      jid := (evt.info.sender.toNonAD).render
      body := evt.message.conversation
      timestamp := evt.info.timestamp
      isCarbon := evt.info.isFromMe }
  if evt.info.chat.server = BroadcastServer then
    if evt.info.chat.user = StatusBroadcastJID.user ∨ message.isCarbon = true then
      (EventKind.unknown, none)
    else
      messageEventProtocolStep getAttach evt.message message
  else if evt.info.isGroup = true then
    messageEventProtocolStep getAttach evt.message
      { message with groupJID := (evt.info.chat.toNonAD).render }
  else if message.isCarbon = true then
    messageEventProtocolStep getAttach evt.message
      { message with jid := (evt.info.chat.toNonAD).render }
  else
    messageEventProtocolStep getAttach evt.message message

/-! ## Session surface (`session.go`)

The whatsmeow client connection is modelled by its authentication-relevant
state: presence of the client pointer and of the stored device credentials.
Remote operations the guards protect are abstracted as `rest` continuations
returning a result together with the list of remote calls performed; the
guarded path itself performs none. -/

/-- The authentication-relevant state of a `whatsmeow.Client`:
`client.Store.ID` is `none` when no device credentials are stored. -/
structure Client where
  storeID : Option String := none
  deriving Repr, DecidableEq

/-- A `Session`, reduced to its client pointer (`none` models a nil client). -/
structure Session where
  client : Option Client := none
  deriving Repr, DecidableEq

/-- The guard condition `s.client == nil || s.client.Store.ID == nil` shared
by all Session methods that require authentication. -/
def unauthenticated (s : Session) : Bool :=
  match s.client with
  | none => true
  | some c => c.storeID.isNone

/-- The result of a session method: an error-or-value outcome plus the list of
remote (network) calls performed. -/
abbrev SessionResult (β : Type) := Except String β × List String

/-- `Session.SendMessage`: rejects unauthenticated sessions before any
processing; the remainder of the method (JID parsing, payload construction and
the network send) is the `rest` continuation. -/
def Session.SendMessage (s : Session) (message : Message)
    (rest : Message → SessionResult Unit) : SessionResult Unit :=
  if unauthenticated s then
    (.error "Cannot send message for unauthenticated session", [])
  else rest message

/-- `Session.SendChatState` guard. -/
def Session.SendChatState {α : Type} (s : Session) (state : α)
    (rest : α → SessionResult Unit) : SessionResult Unit :=
  if unauthenticated s then
    (.error "Cannot send chat state for unauthenticated session", [])
  else rest state

/-- `Session.SendReceipt` guard. -/
def Session.SendReceipt {α : Type} (s : Session) (receipt : α)
    (rest : α → SessionResult Unit) : SessionResult Unit :=
  if unauthenticated s then
    (.error "Cannot send receipt for unauthenticated session", [])
  else rest receipt

/-- `Session.SendPresence` guard. -/
def Session.SendPresence {α : Type} (s : Session) (presence : α)
    (rest : α → SessionResult Unit) : SessionResult Unit :=
  if unauthenticated s then
    (.error "Cannot send presence for unauthenticated session", [])
  else rest presence

/-- `Session.CreateGroup` guard. -/
def Session.CreateGroup {α β : Type} (s : Session) (args : α)
    (rest : α → SessionResult β) : SessionResult β :=
  if unauthenticated s then
    (.error "Cannot create group for unauthenticated session", [])
  else rest args

/-- `Session.LeaveGroup` guard. -/
def Session.LeaveGroup {α : Type} (s : Session) (resourceID : α)
    (rest : α → SessionResult Unit) : SessionResult Unit :=
  if unauthenticated s then
    (.error "Cannot leave group for unauthenticated session", [])
  else rest resourceID

/-- `Session.SetAvatar` guard. -/
def Session.SetAvatar {α : Type} (s : Session) (args : α)
    (rest : α → SessionResult String) : SessionResult String :=
  if unauthenticated s then
    (.error "Cannot set avatar for unauthenticated session", [])
  else rest args

/-- `Session.SetGroupName` guard. -/
def Session.SetGroupName {α : Type} (s : Session) (args : α)
    (rest : α → SessionResult Unit) : SessionResult Unit :=
  if unauthenticated s then
    (.error "Cannot set group name for unauthenticated session", [])
  else rest args

/-- `Session.SetGroupTopic` guard. -/
def Session.SetGroupTopic {α : Type} (s : Session) (args : α)
    (rest : α → SessionResult Unit) : SessionResult Unit :=
  if unauthenticated s then
    (.error "Cannot set group topic for unauthenticated session", [])
  else rest args

/-- `Session.SetAffiliation` guard. -/
def Session.SetAffiliation {α β : Type} (s : Session) (args : α)
    (rest : α → SessionResult β) : SessionResult β :=
  if unauthenticated s then
    (.error "Cannot set affiliation for unauthenticated session", [])
  else rest args

/-- `Session.RequestMessageHistory` guard. -/
def Session.RequestMessageHistory {α : Type} (s : Session) (args : α)
    (rest : α → SessionResult Unit) : SessionResult Unit :=
  if unauthenticated s then
    (.error "Cannot request history for unauthenticated session", [])
  else rest args

/-- `Session.Logout`: a no-op returning success for a disconnected session
(nil client or no stored credentials); otherwise performs the remote logout
(whose outcome is the `remoteLogoutErr` parameter), clears the client pointer
and closes the presence channel. Returns the error outcome, the new session
state and the remote calls performed. -/
def Session.Logout (s : Session) (remoteLogoutErr : Option String) :
    Option String × Session × List String :=
  if unauthenticated s then (none, s, [])
  else (remoteLogoutErr, { s with client := none }, ["client.Logout"])

/-- `Session.propagateEvent`: events reach the host sink only through the
serialized Gateway call channel, modelled as the `queue` of pending
(kind, payload) handler invocations. An unset handler only logs; kind
`EventUnknown` returns without enqueuing; a nil payload is replaced by an
empty one before enqueuing. -/
def propagateEvent (handlerSet : Bool) (kind : EventKind) (payload : Option EventPayload)
    (queue : List (EventKind × EventPayload)) : List (EventKind × EventPayload) :=
  if handlerSet = false then queue
  else if kind = EventKind.unknown then queue
  else queue ++ [(kind, payload.getD {})]

/-! ## Shared helper lemmas -/

/-- A protocol message of type REVOKE makes the translator return immediately,
with kind Revoke and id/origin taken from the key, for any incoming message
state and any attachment oracle. -/
theorem messageEventProtocolStep_revoke (getAttach : GetAttachFn) (raw : RawMessage)
    (message : Message) (p : ProtocolMessage) (k : MessageKey)
    (hp : raw.protocolMessage = some p) (ht : p.type = ProtocolMessageType.revoke)
    (hk : p.key = some k) :
    messageEventProtocolStep getAttach raw message =
      (EventKind.message, some { message :=
        { message with kind := MessageKind.revoke, id := k.id, originJID := k.participant } }) := by
  simp [messageEventProtocolStep, hp, ht, hk, keyID, keyParticipant]

/-! ## Claim theorems -/

/-- C1: the claim states that every waveform computation returns exactly the
requested fixed sample count (64). `getAttachmentWaveform` does (it pads and
truncates `samples[:64]`), but `media.GetWaveform` returns one sample per
parsed probe frame without padding or truncating — contradicting both the
claim and the function's own doc comment. At a probe output of 2 frames with
peak level 0 dB, `GetWaveform` returns a 2-sample list, not 64; the sibling
`getAttachmentWaveform` pads the same input to 64 samples. -/
theorem C1_getWaveform_sample_count_divergence :
    GetWaveform (fun _ => 100) 48000 1000000000 (some [some 0, some 0]) maxWaveformSamples
      = .ok [100, 100] ∧
    ([100, 100] : List ℕ).length ≠ maxWaveformSamples ∧
    getAttachmentWaveform (fun _ => 100) 48000 1000000000 [some 0, some 0]
      = .ok ([100, 100] ++ List.replicate 62 0) :=
  ⟨rfl, by decide, rfl⟩

/-- C2: the claim states the reconnect wait interval is non-decreasing and
never exceeds the 5-minute ceiling. The loop clamps only after sleeping, so
the sleep sequence (in seconds) is 5, 10, 20, 40, 80, 160, 320, 300, 300, …:
the 7th wait (320s) exceeds `keepAliveMaxRetryInterval` (300s), and the 8th
wait (300s) is shorter than the 7th, so the sequence is not non-decreasing.
The interval does start at the floor (`keepAliveMinRetryInterval`). -/
theorem C2_keepAlive_backoff_divergence :
    retrySleepInterval 0 = keepAliveMinRetryInterval ∧
    retrySleepInterval 6 = 320 ∧
    retrySleepInterval 6 > keepAliveMaxRetryInterval ∧
    retrySleepInterval 7 = 300 ∧
    retrySleepInterval 7 < retrySleepInterval 6 := by decide

/-- C3: the claim states a 1-frame GIF selects the JPEG image Spec (true), and
a 30-frame GIF with cumulative delay 3.0s selects the MP4 video Spec with
`ImageFrameRate = 10`. The Go loop `for d := range img.Delay` ranges over
slice indices, not delay values, so the computed cumulative delay for any
30-frame GIF is (0+1+…+29)/100 = 4.35 regardless of the actual delays, and
the frame rate becomes int(30/4.35) = 6, not 10. -/
theorem C3_gif_framerate_divergence :
    gifConvertSpec 1 [300] = imageMessageSpec ∧
    gifConvertSpec 30 (List.replicate 30 10) = { videoMessageSpec with ImageFrameRate := 6 } ∧
    (6 : Int) ≠ 10 := by
  refine ⟨by decide, ?_, by decide⟩
  have ht : gifCumulativeDelay (List.replicate 30 10) = 435 / 100 := by
    show List.foldl _ _ _ = _
    norm_num [List.range, List.range.loop, List.foldl]
  have h6 : intOfFloat (((30 : ℕ) : ℚ) / (435 / 100)) = 6 := by norm_num [intOfFloat]
  rw [gifConvertSpec, if_neg (by decide), ht]
  simp only [h6]

/-- C4: on a Session whose client is nil or whose stored credentials are
absent, `SendMessage` returns the authentication error with no remote call
performed, independent of the message and of the rest of the method body; and
every other mutating Session method rejects in the same way with its own
descriptive error. -/
theorem C4_unauthenticated_mutating_methods_reject (s : Session)
    (h : unauthenticated s = true) :
    (∀ (m : Message) (rest : Message → SessionResult Unit),
      s.SendMessage m rest = (.error "Cannot send message for unauthenticated session", [])) ∧
    (∀ (α : Type) (a : α) (rest : α → SessionResult Unit),
      s.SendChatState a rest = (.error "Cannot send chat state for unauthenticated session", [])) ∧
    (∀ (α : Type) (a : α) (rest : α → SessionResult Unit),
      s.SendReceipt a rest = (.error "Cannot send receipt for unauthenticated session", [])) ∧
    (∀ (α : Type) (a : α) (rest : α → SessionResult Unit),
      s.SendPresence a rest = (.error "Cannot send presence for unauthenticated session", [])) ∧
    (∀ (α β : Type) (a : α) (rest : α → SessionResult β),
      s.CreateGroup a rest = (.error "Cannot create group for unauthenticated session", [])) ∧
    (∀ (α : Type) (a : α) (rest : α → SessionResult Unit),
      s.LeaveGroup a rest = (.error "Cannot leave group for unauthenticated session", [])) ∧
    (∀ (α : Type) (a : α) (rest : α → SessionResult String),
      s.SetAvatar a rest = (.error "Cannot set avatar for unauthenticated session", [])) ∧
    (∀ (α : Type) (a : α) (rest : α → SessionResult Unit),
      s.SetGroupName a rest = (.error "Cannot set group name for unauthenticated session", [])) ∧
    (∀ (α : Type) (a : α) (rest : α → SessionResult Unit),
      s.SetGroupTopic a rest = (.error "Cannot set group topic for unauthenticated session", [])) ∧
    (∀ (α β : Type) (a : α) (rest : α → SessionResult β),
      s.SetAffiliation a rest = (.error "Cannot set affiliation for unauthenticated session", [])) ∧
    (∀ (α : Type) (a : α) (rest : α → SessionResult Unit),
      s.RequestMessageHistory a rest =
        (.error "Cannot request history for unauthenticated session", [])) := by
  refine ⟨?_, ?_, ?_, ?_, ?_, ?_, ?_, ?_, ?_, ?_, ?_⟩ <;> intros <;>
    simp [Session.SendMessage, Session.SendChatState, Session.SendReceipt, Session.SendPresence,
      Session.CreateGroup, Session.LeaveGroup, Session.SetAvatar, Session.SetGroupName,
      Session.SetGroupTopic, Session.SetAffiliation, Session.RequestMessageHistory, h]

/-- Witness for C4 at the concrete disconnected session (nil client). -/
theorem C4_unauthenticated_mutating_methods_reject_witness :
    unauthenticated (Session.mk none) = true ∧
    Session.SendMessage (Session.mk none) {} (fun _ => (.ok (), ["client.SendMessage"])) =
      (.error "Cannot send message for unauthenticated session", []) :=
  ⟨rfl, (C4_unauthenticated_mutating_methods_reject (Session.mk none) rfl).1 {}
    (fun _ => (.ok (), ["client.SendMessage"]))⟩

/-- C5: `propagateEvent` with kind `EventUnknown` leaves the Gateway call
queue unchanged — no handler invocation is enqueued — and any entry the
function does enqueue carries a kind other than `EventUnknown`, so the
registered event-handler callback is never invoked with `EventUnknown`. -/
theorem C5_unknown_events_not_enqueued :
    (∀ (handlerSet : Bool) (payload : Option EventPayload)
        (queue : List (EventKind × EventPayload)),
      propagateEvent handlerSet EventKind.unknown payload queue = queue) ∧
    (∀ (handlerSet : Bool) (kind : EventKind) (payload : Option EventPayload)
        (queue : List (EventKind × EventPayload)) (e : EventKind × EventPayload),
      e ∈ propagateEvent handlerSet kind payload queue →
        e ∈ queue ∨ (e.1 = kind ∧ kind ≠ EventKind.unknown)) := by
  constructor
  · intro hs p q
    rcases hs <;> simp [propagateEvent]
  · intro hs k p q e he
    by_cases h1 : hs = false
    · simp [propagateEvent, h1] at he
      exact Or.inl he
    · by_cases h2 : k = EventKind.unknown
      · simp [propagateEvent, h1, h2] at he
        exact Or.inl he
      · simp [propagateEvent, h1, h2] at he
        rcases he with he | he
        · exact Or.inl he
        · exact Or.inr ⟨by rw [he], h2⟩

/-- Witness for C5 at concrete queue states. -/
theorem C5_unknown_events_not_enqueued_witness :
    propagateEvent true EventKind.unknown (some {}) [] = [] ∧
    ((EventKind.contact, ({} : EventPayload)) ∈ ([] : List (EventKind × EventPayload)) ∨
      ((EventKind.contact, ({} : EventPayload)).1 = EventKind.contact ∧
        EventKind.contact ≠ EventKind.unknown)) := by
  refine ⟨C5_unknown_events_not_enqueued.1 true (some {}) [],
    C5_unknown_events_not_enqueued.2 true EventKind.contact none []
      (EventKind.contact, {}) ?_⟩
  simp [propagateEvent]

/-- C6: a raw inbound message whose chat is on the broadcast server is
discarded (`EventUnknown` with nil payload) when it comes from the
status-broadcast channel or is authored by the self-identity (carbon); an
ordinary broadcast message received from another identity — one carrying no
protocol/reaction/location sub-payload, no attachments and a non-empty plain
body — is normalized as a Plain message. -/
theorem C6_broadcast_message_filtering (getAttach : GetAttachFn) (evt : MessageEvent)
    (hserver : evt.info.chat.server = BroadcastServer) :
    ((evt.info.chat.user = StatusBroadcastJID.user ∨ evt.info.isFromMe = true) →
      newMessageEvent getAttach evt = (EventKind.unknown, none)) ∧
    (evt.info.chat.user ≠ StatusBroadcastJID.user → evt.info.isFromMe = false →
      evt.message.protocolMessage = none → evt.message.reactionMessage = none →
      evt.message.locationMessage = none → evt.message.liveLocationMessage = none →
      evt.message.extendedTextMessage = none → getAttach evt.message = .ok ([], none) →
      evt.message.conversation ≠ "" →
      newMessageEvent getAttach evt = (EventKind.message, some { message :=
        { kind := MessageKind.plain, id := evt.info.id, jid := (evt.info.sender.toNonAD).render,
          body := evt.message.conversation, timestamp := evt.info.timestamp,
          isCarbon := false } })) := by
  constructor
  · intro h
    rcases h with h | h <;> simp [newMessageEvent, hserver, h]
  · intro huser hfm hp hr hl hll he hga hbody
    simp [newMessageEvent, hserver, huser, hfm, messageEventProtocolStep, hp,
      messageEventReactionStep, hr, messageEventLocationStep, hl,
      messageEventLiveLocationStep, hll, messageEventAttachStep, hga,
      messageEventExtendedStep, he, messageEventFinalStep, hbody]

/-- Witness for C6: a status-channel broadcast message is discarded; a
broadcast message from another identity with a plain body is normalized as
kind Plain. -/
theorem C6_broadcast_message_filtering_witness :
    newMessageEvent (fun _ => .ok ([], none))
      (MessageEvent.mk
        (MessageInfo.mk "ID1" (JID.mk "55511" "s.whatsapp.net" 0)
          (JID.mk "status" "broadcast" 0) 0 false false)
        (RawMessage.mk "hi" none none none none none))
      = (EventKind.unknown, none) ∧
    newMessageEvent (fun _ => .ok ([], none))
      (MessageEvent.mk
        (MessageInfo.mk "ID2" (JID.mk "55511" "s.whatsapp.net" 0)
          (JID.mk "1234567890" "broadcast" 0) 0 false false)
        (RawMessage.mk "hello" none none none none none))
      = (EventKind.message, some { message :=
        { kind := MessageKind.plain, id := "ID2", jid := "55511@s.whatsapp.net",
          body := "hello", timestamp := 0, isCarbon := false } }) :=
  ⟨(C6_broadcast_message_filtering (fun _ => .ok ([], none)) _ rfl).1 (Or.inl rfl),
    (C6_broadcast_message_filtering (fun _ => .ok ([], none)) _ rfl).2
      (by decide) rfl rfl rfl rfl rfl rfl rfl (by decide)⟩

/-- C7 counterexample: the claim quantifies over every raw inbound message
carrying a revoke sub-payload with key id "ABC123" and participant "55511@s",
but the broadcast/status filter runs first: a self-authored (carbon) message
in a broadcast channel carrying exactly that revoke sub-payload is translated
to `EventUnknown` with nil payload, not to an `EventMessage` revoke. -/
theorem C7_revoke_counterexample :
    newMessageEvent (fun _ => .ok ([], none))
      (MessageEvent.mk
        (MessageInfo.mk "MSGID1" (JID.mk "55511" "s.whatsapp.net" 0)
          (JID.mk "1234567890" "broadcast" 0) 0 true false)
        (RawMessage.mk ""
          (some (ProtocolMessage.mk ProtocolMessageType.revoke
            (some (MessageKey.mk "ABC123" "55511@s" false)) none))
          none none none none))
      = (EventKind.unknown, none) ∧
    ∀ payload : EventPayload, (EventKind.unknown, (none : Option EventPayload)) ≠
      (EventKind.message, some payload) := by
  constructor
  · rfl
  · intro payload hne
    exact absurd (congrArg Prod.fst hne) (by simp)

/-- C7 (amended): for every raw inbound message carrying a protocol-message
revoke sub-payload that is not discarded by the broadcast/status filter (its
chat is not a broadcast-server chat that is self-authored or from the status
channel), the translator returns an EventMessage whose Message has
Kind=Revoke and ID/OriginJID taken from the revoke key, immediately and
independently of the attachment-extraction oracle and any further field
population. -/
theorem C7_revoke_immediate_amended (getAttach : GetAttachFn) (evt : MessageEvent)
    (p : ProtocolMessage) (k : MessageKey) (hp : evt.message.protocolMessage = some p)
    (ht : p.type = ProtocolMessageType.revoke) (hk : p.key = some k)
    (hfilter : ¬(evt.info.chat.server = BroadcastServer ∧
      (evt.info.chat.user = StatusBroadcastJID.user ∨ evt.info.isFromMe = true))) :
    ∃ payload, newMessageEvent getAttach evt = (EventKind.message, some payload) ∧
      payload.message.kind = MessageKind.revoke ∧ payload.message.id = k.id ∧
      payload.message.originJID = k.participant := by
  have hfin : ∀ M : Message, ∃ payload,
      messageEventProtocolStep getAttach evt.message M = (EventKind.message, some payload) ∧
      payload.message.kind = MessageKind.revoke ∧ payload.message.id = k.id ∧
      payload.message.originJID = k.participant := by
    intro M
    rw [messageEventProtocolStep_revoke getAttach evt.message M p k hp ht hk]
    exact ⟨_, rfl, rfl, rfl, rfl⟩
  by_cases h1 : evt.info.chat.server = BroadcastServer
  · rcases not_or.mp (fun hc => hfilter ⟨h1, hc⟩) with ⟨h2a, h2b⟩
    simp only [newMessageEvent, h1, h2a, h2b]
    simp only [eq_self_iff_true, if_true, or_false, if_neg h2a]
    exact hfin _
  · by_cases hg : evt.info.isGroup = true
    · simp [newMessageEvent, h1, hg]
      exact hfin _
    · by_cases hc : evt.info.isFromMe = true
      · simp [newMessageEvent, h1, hg, hc]
        exact hfin _
      · simp [newMessageEvent, h1, hg, hc]
        exact hfin _

/-- Witness for the amended C7 at a concrete direct-chat revoke message. -/
theorem C7_revoke_immediate_amended_witness :
    ∃ payload, newMessageEvent (fun _ => .ok ([], none))
      (MessageEvent.mk
        (MessageInfo.mk "MSGID2" (JID.mk "55511" "s.whatsapp.net" 0)
          (JID.mk "44422" "s.whatsapp.net" 0) 0 false false)
        (RawMessage.mk ""
          (some (ProtocolMessage.mk ProtocolMessageType.revoke
            (some (MessageKey.mk "ABC123" "55511@s" false)) none))
          none none none none))
      = (EventKind.message, some payload) ∧
      payload.message.kind = MessageKind.revoke ∧ payload.message.id = "ABC123" ∧
      payload.message.originJID = "55511@s" :=
  C7_revoke_immediate_amended (fun _ => .ok ([], none))
    (MessageEvent.mk
      (MessageInfo.mk "MSGID2" (JID.mk "55511" "s.whatsapp.net" 0)
        (JID.mk "44422" "s.whatsapp.net" 0) 0 false false)
      (RawMessage.mk ""
        (some (ProtocolMessage.mk ProtocolMessageType.revoke
          (some (MessageKey.mk "ABC123" "55511@s" false)) none))
        none none none none))
    (ProtocolMessage.mk ProtocolMessageType.revoke
      (some (MessageKey.mk "ABC123" "55511@s" false)) none)
    (MessageKey.mk "ABC123" "55511@s" false) rfl rfl rfl (by decide)

/-- C8: `commandLineArgs` is a pure, deterministic function of the Spec, and
rejects — with the `errInvalidCodec` error, never silently — every Spec whose
audio or video codec field is non-empty and conflicts with the single codec
supported by the Spec's base MIME type: Ogg→opus, M4A→aac, MP4→h264 for
video and aac for audio. -/
theorem C8_commandLineArgs_pure_and_rejects_codec_conflicts :
    (∀ s t : Spec, s = t → commandLineArgs s = commandLineArgs t) ∧
    (∀ s : Spec, baseMediaType s.MIME = TypeOgg → s.AudioCodec ≠ "" → s.AudioCodec ≠ CodecOpus →
      commandLineArgs s = .error (errInvalidCodec TypeOgg CodecOpus s.AudioCodec)) ∧
    (∀ s : Spec, baseMediaType s.MIME = TypeM4A → s.AudioCodec ≠ "" → s.AudioCodec ≠ CodecAAC →
      commandLineArgs s = .error (errInvalidCodec TypeM4A CodecAAC s.AudioCodec)) ∧
    (∀ s : Spec, baseMediaType s.MIME = TypeMP4 → s.VideoCodec ≠ "" → s.VideoCodec ≠ CodecH264 →
      commandLineArgs s = .error (errInvalidCodec TypeMP4 CodecH264 s.VideoCodec)) ∧
    (∀ s : Spec, baseMediaType s.MIME = TypeMP4 →
      (s.VideoCodec = "" ∨ s.VideoCodec = CodecH264) → s.AudioCodec ≠ "" →
      s.AudioCodec ≠ CodecAAC →
      commandLineArgs s = .error (errInvalidCodec TypeMP4 CodecAAC s.AudioCodec)) := by
  refine ⟨fun s t h => by rw [h], ?_, ?_, ?_, ?_⟩
  · intro s h h1 h2
    simp [commandLineArgs, h, h1, h2, Id.run, TypeOgg, TypeM4A]
  · intro s h h1 h2
    simp [commandLineArgs, h, h1, h2, Id.run, TypeOgg, TypeM4A]
  · intro s h h1 h2
    simp [commandLineArgs, h, h1, h2, Id.run, TypeOgg, TypeM4A, TypeMP4]
  · intro s h hv h1 h2
    rcases hv with hv | hv <;>
      simp [commandLineArgs, h, hv, h1, h2, Id.run, TypeOgg, TypeM4A, TypeMP4, CodecH264]

/-- Witness for C8 at concrete conflicting Specs. -/
theorem C8_commandLineArgs_pure_and_rejects_codec_conflicts_witness :
    commandLineArgs { MIME := "audio/ogg", AudioCodec := "aac" } =
      .error (errInvalidCodec TypeOgg CodecOpus "aac") ∧
    commandLineArgs { MIME := "video/mp4", VideoCodec := "vp9" } =
      .error (errInvalidCodec TypeMP4 CodecH264 "vp9") :=
  ⟨C8_commandLineArgs_pure_and_rejects_codec_conflicts.2.1
      { MIME := "audio/ogg", AudioCodec := "aac" } (by decide) (by decide) (by decide),
    C8_commandLineArgs_pure_and_rejects_codec_conflicts.2.2.2.1
      { MIME := "video/mp4", VideoCodec := "vp9" } (by decide) (by decide) (by decide)⟩

/-- C9: Logout on an already-disconnected Session (nil client or no stored
credentials) is a no-op returning success with no remote call; and a second
Logout after any first Logout — in particular after a successful one —
returns success without performing any remote call, since the first always
leaves the client pointer cleared or untouched-and-unauthenticated. -/
theorem C9_logout_idempotent :
    (∀ (s : Session) (e : Option String), unauthenticated s = true →
      s.Logout e = (none, s, [])) ∧
    (∀ (s : Session) (e1 e2 : Option String),
      ((s.Logout e1).2.1).Logout e2 = (none, (s.Logout e1).2.1, [])) := by
  constructor
  · intro s e h
    simp [Session.Logout, h]
  · intro s e1 e2
    have h2 : unauthenticated { client := none } = true := rfl
    by_cases h : unauthenticated s = true
    · simp [Session.Logout, h]
    · simp [Session.Logout, h, h2]

/-- Witness for C9 at a disconnected session and after a successful remote
logout of an authenticated session. -/
theorem C9_logout_idempotent_witness :
    Session.Logout (Session.mk none) none = (none, Session.mk none, []) ∧
    Session.Logout ((Session.Logout (Session.mk (some (Client.mk (some "device0")))) none).2.1)
        none =
      (none, (Session.Logout (Session.mk (some (Client.mk (some "device0")))) none).2.1, []) :=
  ⟨C9_logout_idempotent.1 (Session.mk none) none rfl,
    C9_logout_idempotent.2 (Session.mk (some (Client.mk (some "device0")))) none none⟩

/-- C10: the contact translator's Name is the first non-empty value in the
fixed priority order FullName, FirstName, BusinessName, PushName; when all
four name fields are empty it returns `EventUnknown` with nil payload, so
nameless contacts are never propagated. -/
theorem C10_contact_name_priority (jid : JID) (info : ContactInfo) :
    (info.fullName ≠ "" →
      newContactEvent jid info = (EventKind.contact, some
        { contact := { jid := (jid.toNonAD).render, name := info.fullName } })) ∧
    (info.fullName = "" → info.firstName ≠ "" →
      newContactEvent jid info = (EventKind.contact, some
        { contact := { jid := (jid.toNonAD).render, name := info.firstName } })) ∧
    (info.fullName = "" → info.firstName = "" → info.businessName ≠ "" →
      newContactEvent jid info = (EventKind.contact, some
        { contact := { jid := (jid.toNonAD).render, name := info.businessName } })) ∧
    (info.fullName = "" → info.firstName = "" → info.businessName = "" → info.pushName ≠ "" →
      newContactEvent jid info = (EventKind.contact, some
        { contact := { jid := (jid.toNonAD).render, name := info.pushName } })) ∧
    (info.fullName = "" → info.firstName = "" → info.businessName = "" → info.pushName = "" →
      newContactEvent jid info = (EventKind.unknown, none)) := by
  refine ⟨?_, ?_, ?_, ?_, ?_⟩
  · intro h1
    have hb : (info.fullName != "") = true := by simpa [bne_iff_ne] using h1
    simp [newContactEvent, List.find?, hb, h1]
  · intro h1 h2
    have hb : (info.firstName != "") = true := by simpa [bne_iff_ne] using h2
    simp [newContactEvent, List.find?, h1, hb, h2]
  · intro h1 h2 h3
    have hb : (info.businessName != "") = true := by simpa [bne_iff_ne] using h3
    simp [newContactEvent, List.find?, h1, h2, hb, h3]
  · intro h1 h2 h3 h4
    have hb : (info.pushName != "") = true := by simpa [bne_iff_ne] using h4
    simp [newContactEvent, List.find?, h1, h2, h3, hb, h4]
  · intro h1 h2 h3 h4
    simp [newContactEvent, List.find?, h1, h2, h3, h4]

/-- Witness for C10: second-priority name chosen, and a nameless contact
dropped. -/
theorem C10_contact_name_priority_witness :
    newContactEvent (JID.mk "55511" "s.whatsapp.net" 0)
      (ContactInfo.mk "" "First" "Biz" "Push") = (EventKind.contact, some
        { contact := { jid := "55511@s.whatsapp.net", name := "First" } }) ∧
    newContactEvent (JID.mk "55511" "s.whatsapp.net" 0) (ContactInfo.mk "" "" "" "") =
      (EventKind.unknown, none) :=
  ⟨(C10_contact_name_priority (JID.mk "55511" "s.whatsapp.net" 0)
      (ContactInfo.mk "" "First" "Biz" "Push")).2.1 rfl (by decide),
    (C10_contact_name_priority (JID.mk "55511" "s.whatsapp.net" 0)
      (ContactInfo.mk "" "" "" "")).2.2.2.2 rfl rfl rfl rfl⟩

end SlidgeWhatsapp
